import Mathlib

/-!
Shallow embedding of `src/audio_handler.py` (class `AudioHandler`, a thin
adapter over the mutagen tag library) together with theorems settling the
specification claims about it.

Modelling conventions:
* Python `Optional[str]` fields become `Option String`; a Python value of
  `None` is `none`.
* The on-disk file is a `FileState`: existence flag, extension suffix,
  size, and the per-format tag payloads (an MP3 file uses only the
  `mp3Tags`/`mp3Stream` components, a FLAC file only `flacComments` and
  `flacStream`, a WAV file only `wavInfo`; the unused components of a
  given file are simply ignored by that format's operations).
* `mutagen.File(path)` returns `None` for files it cannot parse; this is
  the `parseOk` flag.  The handler caches the result in `self._audio`
  (lazy loading), and a `None` result is indistinguishable from "not yet
  loaded" because the property re-checks `if self._audio is None`.
* `mutagen.id3.ID3(path)` reads the on-disk ID3 tag dictionary and raises
  `ID3NoHeaderError` when the file has no ID3 header; `tags.save(path)`
  rewrites the tag region from the in-memory dictionary.  A loaded MP3
  audio object holds a snapshot of the tags as they were at load time,
  and `audio.save()` writes that snapshot back to the file.
* Exceptions surface as `Except`: `AudioErr` for the handler's own error
  taxonomy raised at construction, `PyExc` for runtime exceptions that
  can escape the tag-manipulation paths (attribute/index errors on a
  `None` audio object or an empty comment value list; `ID3NoHeaderError`
  is always caught where the source catches it).
-/

set_option autoImplicit false

namespace MusicFile

/-- `AudioType = Literal["mp3", "wav", "flac"]`. -/
inductive AudioType where
  | mp3
  | wav
  | flac
deriving DecidableEq

/-- `format_map`: extension suffix (lower case) to audio type. -/
def format_map : List (String × AudioType) :=
  [(".mp3", .mp3), (".wav", .wav), (".wave", .wav), (".flac", .flac)]

/-- `SongInfo` dataclass: four independently optional string fields. -/
structure SongInfo where
  title : Option String := none
  artist : Option String := none
  album : Option String := none
  genre : Option String := none
deriving DecidableEq

/-- `Lyrics` dataclass: text plus ISO 639-2 language code, default `"eng"`. -/
structure Lyrics where
  text : String
  lang : String := "eng"
deriving DecidableEq

/-- Construction-time errors of the handler (`FileNotFoundError`,
`UnsupportedFormatError`). -/
inductive AudioErr where
  | fileNotFound
  | unsupportedFormat
deriving DecidableEq

/-- Python runtime exceptions that can escape the tag paths:
`ID3NoHeaderError`, `IndexError` (subscript on an empty value list), and
the `AttributeError` / `TypeError` family raised when operating on a
`None` audio object. -/
inductive PyExc where
  | id3NoHeader
  | indexError
  | noneType
deriving DecidableEq

/-- One `USLT` (unsynchronized lyrics) ID3 frame. -/
structure UsltFrame where
  lang : String
  desc : String
  text : String
deriving DecidableEq

/-- The ID3 tag dictionary of an MP3 file, restricted to the frames the
handler touches: the four text frames `TIT2`/`TPE1`/`TALB`/`TCON` (value
= frame text, `none` = frame absent) and the list of `USLT` frames. -/
structure ID3Tags where
  tit2 : Option String := none
  tpe1 : Option String := none
  talb : Option String := none
  tcon : Option String := none
  uslt : List UsltFrame := []
deriving DecidableEq

/-- A FLAC Vorbis-comment dictionary: key to value list, `none` when the
key is absent. -/
def VComments := String → Option (List String)

/-- The `audio.info` object of a parsed WAV file: the stream attributes
plus any song/lyrics attributes (which mutagen stores only in memory on
that object — they are not serialized).  A `none` field models the
attribute being absent (`getattr(..., default)` / `hasattr`). -/
structure WavInfo where
  title : Option String := none
  artist : Option String := none
  album : Option String := none
  genre : Option String := none
  lyrics : Option String := none
  length : Option Nat := none
  bitrate : Option Nat := none
  sample_rate : Option Nat := none

/-- Stream technical info (`audio.info`) for MP3/FLAC: a `none` field
models `hasattr(info, attr) = False`.  Attribute values are abstracted
to `Nat` (only their presence matters to the handler). -/
structure StreamInfo where
  length : Option Nat := none
  bitrate : Option Nat := none
  sample_rate : Option Nat := none

/-- The object returned by `mutagen.File(path)` for each format.  An MP3
object carries a snapshot of the ID3 tags as of load time (`none` when
the file has no ID3 header); a FLAC object carries the Vorbis-comment
dictionary; a WAV object carries its `info` substructure (`none` models
the info attribute being absent/falsy). -/
inductive AudioObj where
  | mp3 (tags : Option ID3Tags) (sinfo : Option StreamInfo)
  | flac (comments : VComments) (sinfo : Option StreamInfo)
  | wav (winfo : Option WavInfo)

/-- The on-disk state of the file named by the handler's path. -/
structure FileState where
  path : String
  suffix : String
  pathExists : Bool
  fileSize : Nat
  parseOk : Bool
  mp3Tags : Option ID3Tags := none
  mp3Stream : Option StreamInfo := none
  flacComments : VComments := fun _ => none
  flacStream : Option StreamInfo := none
  wavInfo : Option WavInfo := none

/-- The handler object: the format fixed at construction plus the lazily
loaded `self._audio` cache. -/
structure Handle where
  fileType : AudioType
  cache : Option AudioObj

/-- Python `str.lower()`, modelled character by character over the
string's data. -/
def strLower (s : String) : String :=
  ⟨s.data.map Char.toLower⟩

/-- `AudioHandler._detect_format`: lower-case the suffix, look it up in
`format_map`. -/
def detectFormat (suffix : String) : Option AudioType :=
  format_map.lookup (strLower suffix)

/-- `AudioHandler.__init__`: existence check first, then extension
check; the audio cache starts out unset (`self._audio = None`). -/
def initHandler (fs : FileState) : Except AudioErr Handle :=
  if fs.pathExists = false then
    .error .fileNotFound
  else
    match detectFormat fs.suffix with
    | none => .error .unsupportedFormat
    | some ft => .ok { fileType := ft, cache := none }

/-- A freshly constructed handle of the given format (audio not yet
loaded). -/
def freshHandle (ft : AudioType) : Handle :=
  { fileType := ft, cache := none }

/-- `mutagen.File(path)`: parses the file into a per-format audio
object, or `None` (here `none`) when the file cannot be parsed. -/
def mutagenLoad (ft : AudioType) (fs : FileState) : Option AudioObj :=
  if fs.parseOk then
    some (match ft with
      | .mp3 => .mp3 fs.mp3Tags fs.mp3Stream
      | .flac => .flac fs.flacComments fs.flacStream
      | .wav => .wav fs.wavInfo)
  else none

/-- The `audio` property: return the cached object, else load it with
`mutagen.File` and cache it.  A `None` load result leaves the cache
unset, exactly as `self._audio = MutagenFile(...)` does. -/
def getAudio (h : Handle) (fs : FileState) : Option AudioObj × Handle :=
  match h.cache with
  | some a => (some a, h)
  | none =>
    match mutagenLoad h.fileType fs with
    | some a => (some a, { h with cache := some a })
    | none => (none, h)

/-- `audio.save()` on a loaded object: an MP3 object writes its tag
snapshot back to the file (mutagen `ID3.save` rewrites the whole tag
region; with no tags nothing is persisted), a FLAC object writes its
comment dictionary, and a WAV object persists none of the in-memory
attributes the handler sets on `audio.info`. -/
def AudioObj.saveToFile : AudioObj → FileState → FileState
  | .mp3 (some t) _, fs => { fs with mp3Tags := some t }
  | .mp3 none _, fs => fs
  | .flac c _, fs => { fs with flacComments := c }
  | .wav _, fs => fs

/-- `self.audio.save()`: raises on a `None` audio object. -/
def audioSave (a? : Option AudioObj) (fs : FileState) : Except PyExc FileState :=
  match a? with
  | some a => .ok (a.saveToFile fs)
  | none => .error .noneType

/-- `mutagen.id3.ID3(path)`: the on-disk tag dictionary, or
`ID3NoHeaderError` when the file has no ID3 header. -/
def id3LoadFile (fs : FileState) : Except PyExc ID3Tags :=
  match fs.mp3Tags with
  | some t => .ok t
  | none => .error .id3NoHeader

/-- `id3.save(self.file_path)`: write the tag dictionary to the file. -/
def id3SaveFile (t : ID3Tags) (fs : FileState) : FileState :=
  { fs with mp3Tags := some t }

/-- `AudioHandler._get_song_info_mp3`: read the four text frames with
`str(id3.get(frame, ""))` — an absent frame therefore yields the empty
string, not `None`; `ID3NoHeaderError` is caught and leaves the default
(all-`None`) record. -/
def getSongInfoMp3 (fs : FileState) : SongInfo :=
  match id3LoadFile fs with
  | .ok id3 =>
    { title := some (id3.tit2.getD "")
      artist := some (id3.tpe1.getD "")
      album := some (id3.talb.getD "")
      genre := some (id3.tcon.getD "") }
  | .error _ => {}

/-- `audio.get(key, [None])[0]` on a Vorbis-comment dictionary: `none`
when the key is absent (subscripting the default `[None]`), the first
value when present, and an `IndexError` when the key is present with an
empty value list. -/
def flacField (c : VComments) (k : String) : Except PyExc (Option String) :=
  match c k with
  | none => .ok none
  | some [] => .error .indexError
  | some (v :: _) => .ok (some v)

/-- `AudioHandler._get_song_info_flac`. -/
def getSongInfoFlac (c : VComments) : Except PyExc SongInfo := do
  let t ← flacField c "TITLE"
  let ar ← flacField c "ARTIST"
  let al ← flacField c "ALBUM"
  let g ← flacField c "GENRE"
  pure { title := t, artist := ar, album := al, genre := g }

/-- `AudioHandler._get_song_info_wav`: `getattr(audio.info, field, None)`
for the four fields when the info substructure is there, else the
all-`None` record (this also covers a `None` audio object, for which
`hasattr(audio, "info")` is false). -/
def getSongInfoWav : Option WavInfo → SongInfo
  | some w => { title := w.title, artist := w.artist, album := w.album, genre := w.genre }
  | none => {}

/-- `AudioHandler._set_song_info_mp3`: load the on-disk tags (a missing
header yields a fresh empty `ID3()`), assign each non-`None` field, and
save back to the file. -/
def setSongInfoMp3 (info : SongInfo) (fs : FileState) : FileState :=
  let id3 :=
    match id3LoadFile fs with
    | .ok t => t
    | .error _ => {}
  let id3 := match info.title with | some t => { id3 with tit2 := some t } | none => id3
  let id3 := match info.artist with | some t => { id3 with tpe1 := some t } | none => id3
  let id3 := match info.album with | some t => { id3 with talb := some t } | none => id3
  let id3 := match info.genre with | some t => { id3 with tcon := some t } | none => id3
  id3SaveFile id3 fs

/-- `audio[key] = value` on a Vorbis-comment dictionary: replace the
key's value list with the singleton of the assigned string. -/
def vcSetStr (c : VComments) (k : String) (v : String) : VComments :=
  fun k' => if k' = k then some [v] else c k'

/-- The conditional key assignments of `_set_song_info_flac`. -/
def setFlacFields (c : VComments) (info : SongInfo) : VComments :=
  let c := match info.title with | some t => vcSetStr c "TITLE" t | none => c
  let c := match info.artist with | some t => vcSetStr c "ARTIST" t | none => c
  let c := match info.album with | some t => vcSetStr c "ALBUM" t | none => c
  match info.genre with | some t => vcSetStr c "GENRE" t | none => c

/-- The conditional attribute assignments of `_set_song_info_wav`. -/
def setWavFields (w : WavInfo) (info : SongInfo) : WavInfo :=
  let w := match info.title with | some t => { w with title := some t } | none => w
  let w := match info.artist with | some t => { w with artist := some t } | none => w
  let w := match info.album with | some t => { w with album := some t } | none => w
  match info.genre with | some t => { w with genre := some t } | none => w

/-- `AudioHandler.get_song_info`: dispatch on the fixed format.  The MP3
branch reads the file directly through `ID3(path)` and never touches the
audio cache; the FLAC and WAV branches go through `self.audio`. -/
def getSongInfo (h : Handle) (fs : FileState) : Except PyExc (SongInfo × Handle) :=
  match h.fileType with
  | .mp3 => .ok (getSongInfoMp3 fs, h)
  | .flac =>
    match getAudio h fs with
    | (some (.flac c _), h') => (getSongInfoFlac c).map (fun si => (si, h'))
    | (some _, _) => .error .noneType -- unreachable: a flac handle only caches a flac object
    | (none, _) => .error .noneType -- audio is None: `.get` raises
  | .wav =>
    match getAudio h fs with
    | (some (.wav wi), h') => .ok (getSongInfoWav wi, h')
    | (some _, _) => .error .noneType -- unreachable
    | (none, h') => .ok (getSongInfoWav none, h') -- hasattr(None, "info") is false

/-- `AudioHandler.set_song_info`: dispatch to the per-format writer,
then `self.audio.save()`.  The MP3 writer works on the file through
`ID3(path)`; the final save lazily loads the audio object (against the
already-updated file when the cache was empty) and writes its snapshot
back.  The FLAC and WAV writers mutate the cached audio object itself
and save it (once in the helper, once in the wrapper). -/
def setSongInfo (h : Handle) (info : SongInfo) (fs : FileState) :
    Except PyExc (FileState × Handle) :=
  match h.fileType with
  | .mp3 =>
    let fs1 := setSongInfoMp3 info fs
    let (a?, h') := getAudio h fs1
    (audioSave a? fs1).map (fun fs2 => (fs2, h'))
  | .flac =>
    match getAudio h fs with
    | (some (.flac c si), h') =>
      let a' := AudioObj.flac (setFlacFields c info) si
      let fs1 := a'.saveToFile fs
      .ok (a'.saveToFile fs1, { h' with cache := some a' })
    | (some _, _) => .error .noneType -- unreachable
    | (none, _) => .error .noneType -- subscript/save on a None audio object raises
  | .wav =>
    match getAudio h fs with
    | (some (.wav (some w)), h') =>
      let a' := AudioObj.wav (some (setWavFields w info))
      .ok (a'.saveToFile (a'.saveToFile fs), { h' with cache := some a' })
    | (some (.wav none), h') => .ok (fs, h') -- hasattr false: skip fields, save persists nothing
    | (some _, _) => .error .noneType -- unreachable
    | (none, _) => .error .noneType -- `.save` on a None audio object raises

/-- `AudioHandler._get_lyrics_mp3`: first `USLT` frame if any;
`ID3NoHeaderError` is caught and yields `None`. -/
def getLyricsMp3 (fs : FileState) : Option Lyrics :=
  match id3LoadFile fs with
  | .ok id3 =>
    match id3.uslt with
    | f :: _ => some { text := f.text, lang := f.lang }
    | [] => none
  | .error _ => none

/-- `AudioHandler._get_lyrics_flac`: first value of `LYRICS`, else first
value of `DESCRIPTION`, else `None` (Python truthiness of the value
list: an absent key and a present key with an empty list both fall
through). -/
def getLyricsFlac (c : VComments) : Option Lyrics :=
  match (c "LYRICS").getD [] with
  | v :: _ => some { text := v, lang := "eng" }
  | [] =>
    match (c "DESCRIPTION").getD [] with
    | v :: _ => some { text := v, lang := "eng" }
    | [] => none

/-- `AudioHandler._get_lyrics_wav`: `getattr(audio.info, "lyrics", None)`
guarded by Python truthiness (`if lyrics:`), so an empty string also
yields `None`. -/
def getLyricsWav : Option WavInfo → Option Lyrics
  | some w =>
    match w.lyrics with
    | some s => if s = "" then none else some { text := s, lang := "eng" }
    | none => none
  | none => none

/-- `AudioHandler.get_lyrics`: dispatch on the fixed format. -/
def getLyrics (h : Handle) (fs : FileState) : Except PyExc (Option Lyrics × Handle) :=
  match h.fileType with
  | .mp3 => .ok (getLyricsMp3 fs, h)
  | .flac =>
    match getAudio h fs with
    | (some (.flac c _), h') => .ok (getLyricsFlac c, h')
    | (some _, _) => .error .noneType -- unreachable
    | (none, _) => .error .noneType -- `.get` on a None audio object raises
  | .wav =>
    match getAudio h fs with
    | (some (.wav wi), h') => .ok (getLyricsWav wi, h')
    | (some _, _) => .error .noneType -- unreachable
    | (none, h') => .ok (getLyricsWav none, h') -- hasattr(None, "info") is false

/-- `AudioHandler._set_lyrics_mp3`: load the on-disk tags (fresh empty
`ID3()` on a missing header), `delall("USLT")`, insert exactly one new
`USLT` frame (`desc="Lyrics"`), and save to the file. -/
def setLyricsMp3 (ly : Lyrics) (fs : FileState) : FileState :=
  let id3 :=
    match id3LoadFile fs with
    | .ok t => t
    | .error _ => {}
  let id3 := { id3 with uslt := [] }
  let id3 := { id3 with uslt := [{ lang := ly.lang, desc := "Lyrics", text := ly.text }] }
  id3SaveFile id3 fs

/-- `AudioHandler.set_lyrics` (with an explicit `Lyrics` argument):
dispatch to the per-format writer, then `self.audio.save()`. -/
def setLyrics (h : Handle) (ly : Lyrics) (fs : FileState) :
    Except PyExc (FileState × Handle) :=
  match h.fileType with
  | .mp3 =>
    let fs1 := setLyricsMp3 ly fs
    let (a?, h') := getAudio h fs1
    (audioSave a? fs1).map (fun fs2 => (fs2, h'))
  | .flac =>
    match getAudio h fs with
    | (some (.flac c si), h') =>
      let a' := AudioObj.flac (vcSetStr c "LYRICS" ly.text) si
      .ok (a'.saveToFile (a'.saveToFile fs), { h' with cache := some a' })
    | (some _, _) => .error .noneType -- unreachable
    | (none, _) => .error .noneType
  | .wav =>
    match getAudio h fs with
    | (some (.wav (some w)), h') =>
      let a' := AudioObj.wav (some { w with lyrics := some ly.text })
      .ok (a'.saveToFile (a'.saveToFile fs), { h' with cache := some a' })
    | (some (.wav none), h') => .ok (fs, h') -- hasattr false: nothing set or persisted
    | (some _, _) => .error .noneType -- unreachable
    | (none, _) => .error .noneType

/-- `set_lyrics` with a bare string argument: wraps it in
`Lyrics(text=s)` with the default language. -/
def setLyricsStr (h : Handle) (s : String) (fs : FileState) :
    Except PyExc (FileState × Handle) :=
  setLyrics h { text := s } fs

/-- A value stored in the dictionary `get_audio_info` returns. -/
inductive InfoVal where
  | str (s : String)
  | nat (n : Nat)
  | fmt (t : AudioType)
deriving DecidableEq

/-- The stream info exposed by an audio object (`audio.info`): for WAV
it is carried by the `info` substructure itself. -/
def AudioObj.streamInfo : AudioObj → Option StreamInfo
  | .mp3 _ si => si
  | .flac _ si => si
  | .wav wi =>
    wi.map (fun w => { length := w.length, bitrate := w.bitrate, sample_rate := w.sample_rate })

/-- The dictionary built by `get_audio_info`: the three unconditional
entries, then — when `self.audio.info` is truthy — one entry per
`hasattr`-guarded stream attribute, in source order. -/
def buildAudioDict (p : String) (ft : AudioType) (sz : Nat) (si? : Option StreamInfo) :
    List (String × InfoVal) :=
  let base := [("file_path", InfoVal.str p), ("format", InfoVal.fmt ft),
    ("file_size", InfoVal.nat sz)]
  match si? with
  | none => base
  | some si =>
    base
      ++ (match si.length with | some v => [("duration", InfoVal.nat v)] | none => [])
      ++ (match si.bitrate with | some v => [("bitrate", InfoVal.nat v)] | none => [])
      ++ (match si.sample_rate with | some v => [("sample_rate", InfoVal.nat v)] | none => [])

/-- `AudioHandler.get_audio_info`: accesses `self.audio.info`, which
raises on a `None` audio object. -/
def getAudioInfo (h : Handle) (fs : FileState) :
    Except PyExc (List (String × InfoVal) × Handle) :=
  match getAudio h fs with
  | (some a, h') => .ok (buildAudioDict fs.path h.fileType fs.fileSize a.streamInfo, h')
  | (none, _) => .error .noneType

/-! Scenario compositions and well-formedness predicates used by the
claim theorems. -/

/-- Whether an `Except` computation finished without raising. -/
def exceptOk {ε α : Type} : Except ε α → Bool
  | .ok _ => true
  | .error _ => false

/-- `get_song_info()` on a freshly constructed handle. -/
def getFresh (ft : AudioType) (fs : FileState) : Except PyExc SongInfo :=
  (getSongInfo (freshHandle ft) fs).map (fun p => p.1)

/-- `set_song_info(info)` followed by `get_song_info()` on the same
(freshly constructed) handle; the result of the final read. -/
def setThenGet (ft : AudioType) (info : SongInfo) (fs : FileState) :
    Except PyExc SongInfo := do
  let (fs1, h1) ← setSongInfo (freshHandle ft) info fs
  let (si, _) ← getSongInfo h1 fs1
  pure si

/-- Two consecutive `set_lyrics(text)` calls on the same (freshly
constructed) handle; the resulting file state. -/
def twoSetLyrics (ft : AudioType) (s1 s2 : String) (fs : FileState) :
    Except PyExc FileState := do
  let (fs1, h1) ← setLyricsStr (freshHandle ft) s1 fs
  let (fs2, _) ← setLyricsStr h1 s2 fs1
  pure fs2

/-- A well-formed Vorbis-comment dictionary: no key maps to an empty
value list (mutagen never produces one). -/
def flacWF (c : VComments) : Prop :=
  ∀ k vs, c k = some vs → vs ≠ []

/-- A well-formed file of the given supported format: mutagen can parse
it, and for FLAC its comment dictionary is well-formed. -/
def wellFormed (ft : AudioType) (fs : FileState) : Prop :=
  fs.parseOk = true ∧ (ft = .flac → flacWF fs.flacComments)

/-- The stream info the underlying library exposes for the file, as
`get_audio_info` would see it after lazily loading the audio object. -/
def exposedStream (ft : AudioType) (fs : FileState) : Option StreamInfo :=
  (mutagenLoad ft fs).bind AudioObj.streamInfo

/-- The first value stored under a Vorbis-comment key, if any (an absent
key and a key with an empty value list both have none). -/
def vcFirst (c : VComments) (k : String) : Option String :=
  ((c k).getD []).head?

instance {ε α : Type} [DecidableEq ε] [DecidableEq α] : DecidableEq (Except ε α) :=
  fun x y =>
    match x, y with
    | .ok a, .ok b => decidable_of_iff (a = b) (by simp)
    | .ok _, .error _ => .isFalse (by simp)
    | .error _, .ok _ => .isFalse (by simp)
    | .error e, .error f => decidable_of_iff (e = f) (by simp)

/-! Concrete file states used by the witness and counterexample
theorems. -/

/-- An existing, parseable MP3 file whose ID3 header is present but
holds only a `TPE1` (artist) frame. -/
def exMp3Artist : FileState :=
  { path := "/music/a.mp3", suffix := ".mp3", pathExists := true, fileSize := 2048,
    parseOk := true, mp3Tags := some { tpe1 := some "B" },
    mp3Stream := some { length := some 180, bitrate := some 128000 } }

/-- An existing, parseable MP3 file with an empty ID3 tag set. -/
def exMp3Empty : FileState :=
  { path := "/music/e.mp3", suffix := ".mp3", pathExists := true, fileSize := 1024,
    parseOk := true, mp3Tags := some {} }

/-- A path that does not resolve to an existing file. -/
def exMissing : FileState :=
  { path := "/music/missing.ogg", suffix := ".ogg", pathExists := false, fileSize := 0,
    parseOk := false }

/-- An existing file with an unsupported extension. -/
def exBadExt : FileState :=
  { path := "/music/x.ogg", suffix := ".ogg", pathExists := true, fileSize := 512,
    parseOk := true }

/-- An existing file whose extension is an upper-case variant of a
supported one. -/
def exUpperMp3 : FileState :=
  { path := "/music/U.MP3", suffix := ".MP3", pathExists := true, fileSize := 4096,
    parseOk := true, mp3Tags := some {} }

/-- A FLAC comment dictionary holding only a `DESCRIPTION` comment. -/
def exDescComments : VComments :=
  fun k => if k = "DESCRIPTION" then some ["desc lyrics"] else none

/-- An existing, parseable FLAC file with only a `DESCRIPTION` comment. -/
def exFlacDesc : FileState :=
  { path := "/music/d.flac", suffix := ".flac", pathExists := true, fileSize := 9000,
    parseOk := true, flacComments := exDescComments,
    flacStream := some { length := some 200, sample_rate := some 44100 } }

/-- An existing, parseable WAV file whose info substructure carries no
song attributes. -/
def exWav : FileState :=
  { path := "/music/w.wav", suffix := ".wav", pathExists := true, fileSize := 44100,
    parseOk := true, wavInfo := some { sample_rate := some 48000 } }

/-! ## Claim theorems -/

@[simp] lemma ok_bind {ε α β : Type} (a : α) (f : α → Except ε β) :
    (Except.ok a >>= f : Except ε β) = f a := rfl

@[simp] lemma error_bind {ε α β : Type} (e : ε) (f : α → Except ε β) :
    (Except.error e >>= f : Except ε β) = .error e := rfl

/-- C3: construction with a non-existing path fails with the not-found
error kind; construction on an existing path whose extension does not
map to a supported format fails with the unsupported-format error kind;
and whenever construction succeeds the tag object has not been created
(the audio cache is unset), so in every failure case no tag object was
created either. -/
theorem c3_construction_errors (fs : FileState) :
    (fs.pathExists = false → initHandler fs = .error .fileNotFound) ∧
    (fs.pathExists = true → detectFormat fs.suffix = none →
      initHandler fs = .error .unsupportedFormat) ∧
    (∀ h, initHandler fs = .ok h → h.cache = none) := by
  refine ⟨fun h1 => by simp [initHandler, h1], fun h1 h2 => by simp [initHandler, h1, h2], ?_⟩
  intro h hh
  unfold initHandler at hh
  split at hh
  · simp at hh
  · split at hh
    · simp at hh
    · simp only [Except.ok.injEq] at hh
      rw [← hh]

/-- Witness for C3 at concrete inputs: a missing path and an existing
`.ogg` file. -/
theorem c3_witness :
    initHandler exMissing = .error .fileNotFound ∧
    initHandler exBadExt = .error .unsupportedFormat :=
  ⟨(c3_construction_errors exMissing).1 rfl,
   (c3_construction_errors exBadExt).2.1 rfl (by decide)⟩

/-- C10: the existence check precedes the extension check: every
non-existing path fails with the not-found kind (whatever its
extension), and the unsupported-format error can only arise for an
existing path. -/
theorem c10_exists_check_first (fs : FileState) :
    (fs.pathExists = false → initHandler fs = .error .fileNotFound) ∧
    (initHandler fs = .error .unsupportedFormat → fs.pathExists = true) := by
  constructor
  · intro h1; simp [initHandler, h1]
  · intro h1
    by_contra hne
    have hpe : fs.pathExists = false := by
      cases hp : fs.pathExists
      · rfl
      · exact absurd hp hne
    simp [initHandler, hpe] at h1

/-- Witness for C10: a missing path with an unsupported extension still
fails with the not-found kind. -/
theorem c10_witness : initHandler exMissing = .error .fileNotFound :=
  (c10_exists_check_first exMissing).1 rfl

/-- C9: extension matching is case-insensitive: whenever the suffix of
an existing file lower-cases to one of the four supported extensions,
construction succeeds and yields the format the lower-case extension
maps to. -/
theorem c9_case_insensitive (fs : FileState) (hex : fs.pathExists = true) :
    (strLower fs.suffix = ".mp3" → initHandler fs = .ok (freshHandle .mp3)) ∧
    (strLower fs.suffix = ".wav" → initHandler fs = .ok (freshHandle .wav)) ∧
    (strLower fs.suffix = ".wave" → initHandler fs = .ok (freshHandle .wav)) ∧
    (strLower fs.suffix = ".flac" → initHandler fs = .ok (freshHandle .flac)) := by
  refine ⟨?_, ?_, ?_, ?_⟩ <;> intro hl <;>
    simp [initHandler, hex, detectFormat, hl, format_map, freshHandle, List.lookup]

/-- Witness for C9: the upper-case variant `.MP3` is accepted and yields
the MP3 format. -/
theorem c9_witness :
    strLower ".MP3" = ".mp3" ∧ initHandler exUpperMp3 = .ok (freshHandle .mp3) :=
  ⟨by decide, (c9_case_insensitive exUpperMp3 rfl).1 (by decide)⟩

/-- Counterexample to C2 as stated: on an MP3 file whose ID3 header is
present but has no `TIT2` frame, `get_song_info()` returns the title as
the present empty string `""`, not as an absent field. -/
theorem c2_counterexample :
    (getFresh .mp3 exMp3Artist).map SongInfo.title = .ok (some "") ∧
    (getFresh .mp3 exMp3Artist).map SongInfo.title ≠ .ok none := by
  constructor
  · rfl
  · decide

/-- C2 as amended: for every MP3 file, `get_song_info()` never raises;
when an ID3 header is present each of the frames `TIT2`/`TPE1`/`TALB`/
`TCON` is reported as its text, an absent frame yielding the empty
string (a present, empty field — not an absent one); when the file has
no ID3 header at all the parse failure is caught and an all-empty
record (every field absent) is returned. -/
theorem c2_mp3_get_semantics (fs : FileState) :
    (∀ t, fs.mp3Tags = some t →
      getFresh .mp3 fs =
        .ok ⟨some (t.tit2.getD ""), some (t.tpe1.getD ""),
          some (t.talb.getD ""), some (t.tcon.getD "")⟩) ∧
    (fs.mp3Tags = none → getFresh .mp3 fs = .ok {}) := by
  constructor
  · intro t ht
    simp [getFresh, freshHandle, getSongInfo, getSongInfoMp3, id3LoadFile, ht, Except.map]
  · intro ht
    simp [getFresh, freshHandle, getSongInfo, getSongInfoMp3, id3LoadFile, ht, Except.map]

/-- Witness for the amended C2 at a concrete file with only an artist
frame. -/
theorem c2_witness :
    getFresh .mp3 exMp3Artist =
      .ok { title := some "", artist := some "B", album := some "", genre := some "" } :=
  (c2_mp3_get_semantics exMp3Artist).1 { tpe1 := some "B" } rfl

/-- C5: evidence against the claimed consequence.  `_set_lyrics_mp3`
does delete all `USLT` frames and insert exactly one, but after two
consecutive `set_lyrics` calls on the same handle the file holds one
`USLT` frame with the FIRST call's text, not the second's: the first
call lazily loads and caches `self._audio` (with a snapshot of the tags
as of after the first write), and the second call's trailing
`self.audio.save()` writes that stale snapshot back over the tags the
second `id3.save` had just written. -/
theorem c5_two_set_lyrics_evidence :
    (twoSetLyrics .mp3 "L1" "L2" exMp3Empty).map (fun fs => (fs.mp3Tags.getD {}).uslt) =
      .ok [{ lang := "eng", desc := "Lyrics", text := "L1" }] := rfl

lemma getLyricsFlac_eq_vcFirst (c : VComments) :
    getLyricsFlac c =
      match vcFirst c "LYRICS" with
      | some v => some { text := v, lang := "eng" }
      | none =>
        match vcFirst c "DESCRIPTION" with
        | some v => some { text := v, lang := "eng" }
        | none => none := by
  unfold getLyricsFlac vcFirst
  cases (c "LYRICS").getD [] <;> cases (c "DESCRIPTION").getD [] <;> simp

/-- C6: on a parseable FLAC file, `get_lyrics()` returns the first value
of the `LYRICS` comment when it has one; otherwise the first value of
the `DESCRIPTION` comment when it has one; and `None` (not an error)
when neither does. -/
theorem c6_flac_lyrics_priority (fs : FileState) (hp : fs.parseOk = true) :
    (∀ v, vcFirst fs.flacComments "LYRICS" = some v →
      (getLyrics (freshHandle .flac) fs).map Prod.fst =
        .ok (some { text := v, lang := "eng" })) ∧
    (vcFirst fs.flacComments "LYRICS" = none →
      ∀ v, vcFirst fs.flacComments "DESCRIPTION" = some v →
        (getLyrics (freshHandle .flac) fs).map Prod.fst =
          .ok (some { text := v, lang := "eng" })) ∧
    (vcFirst fs.flacComments "LYRICS" = none →
      vcFirst fs.flacComments "DESCRIPTION" = none →
      (getLyrics (freshHandle .flac) fs).map Prod.fst = .ok none) := by
  have hred : (getLyrics (freshHandle .flac) fs).map Prod.fst =
      .ok (getLyricsFlac fs.flacComments) := by
    simp [getLyrics, freshHandle, getAudio, mutagenLoad, hp, Except.map]
  refine ⟨?_, ?_, ?_⟩
  · intro v hv
    rw [hred, getLyricsFlac_eq_vcFirst, hv]
  · intro hn v hv
    rw [hred, getLyricsFlac_eq_vcFirst, hn, hv]
  · intro hn hd
    rw [hred, getLyricsFlac_eq_vcFirst, hn, hd]

/-- Witness for C6: a FLAC file carrying only a `DESCRIPTION` comment
returns that comment's value from `get_lyrics()`. -/
theorem c6_witness :
    (getLyrics (freshHandle .flac) exFlacDesc).map Prod.fst =
      .ok (some { text := "desc lyrics", lang := "eng" }) :=
  (c6_flac_lyrics_priority exFlacDesc rfl).2.1 (by decide) "desc lyrics" (by decide)

lemma buildAudioDict_lookup (p : String) (ft : AudioType) (sz : Nat) (si? : Option StreamInfo) :
    (buildAudioDict p ft sz si?).lookup "file_path" = some (.str p) ∧
    (buildAudioDict p ft sz si?).lookup "format" = some (.fmt ft) ∧
    (buildAudioDict p ft sz si?).lookup "file_size" = some (.nat sz) ∧
    (((buildAudioDict p ft sz si?).lookup "duration").isSome ↔
      (si?.bind StreamInfo.length).isSome) ∧
    (((buildAudioDict p ft sz si?).lookup "bitrate").isSome ↔
      (si?.bind StreamInfo.bitrate).isSome) ∧
    (((buildAudioDict p ft sz si?).lookup "sample_rate").isSome ↔
      (si?.bind StreamInfo.sample_rate).isSome) := by
  rcases si? with _ | ⟨l, b, s⟩
  · simp [buildAudioDict, List.lookup]
  · rcases l with _ | lv <;> rcases b with _ | bv <;> rcases s with _ | sv <;>
      simp [buildAudioDict, List.lookup]

/-- C7: on a parseable file of any supported format, `get_audio_info()`
returns a dictionary that always contains `file_path`, `format` and
`file_size` (with the handle's values), and contains each of
`duration`/`bitrate`/`sample_rate` exactly when the underlying parsed
stream info exposes the corresponding attribute. -/
theorem c7_audio_info_fields (ft : AudioType) (fs : FileState) (hp : fs.parseOk = true) :
    ∃ l h', getAudioInfo (freshHandle ft) fs = .ok (l, h') ∧
      l.lookup "file_path" = some (.str fs.path) ∧
      l.lookup "format" = some (.fmt ft) ∧
      l.lookup "file_size" = some (.nat fs.fileSize) ∧
      ((l.lookup "duration").isSome ↔ ((exposedStream ft fs).bind StreamInfo.length).isSome) ∧
      ((l.lookup "bitrate").isSome ↔ ((exposedStream ft fs).bind StreamInfo.bitrate).isSome) ∧
      ((l.lookup "sample_rate").isSome ↔
        ((exposedStream ft fs).bind StreamInfo.sample_rate).isSome) := by
  obtain ⟨a, ha⟩ : ∃ a, mutagenLoad ft fs = some a := by simp [mutagenLoad, hp]
  have hinfo : getAudioInfo (freshHandle ft) fs =
      .ok (buildAudioDict fs.path ft fs.fileSize a.streamInfo,
        { fileType := ft, cache := some a }) := by
    simp [getAudioInfo, freshHandle, getAudio, ha]
  have hexp : exposedStream ft fs = a.streamInfo := by simp [exposedStream, ha]
  obtain ⟨h1, h2, h3, h4, h5, h6⟩ := buildAudioDict_lookup fs.path ft fs.fileSize a.streamInfo
  refine ⟨_, _, hinfo, h1, h2, h3, ?_, ?_, ?_⟩ <;> rw [hexp] <;> assumption

/-- Witness for C7 at a concrete MP3 file whose stream info exposes
length and bitrate but no sample rate. -/
theorem c7_witness :
    ∃ l h', getAudioInfo (freshHandle .mp3) exMp3Artist = .ok (l, h') ∧
      l.lookup "file_path" = some (.str exMp3Artist.path) ∧
      l.lookup "format" = some (.fmt .mp3) ∧
      l.lookup "file_size" = some (.nat exMp3Artist.fileSize) ∧
      ((l.lookup "duration").isSome ↔
        ((exposedStream .mp3 exMp3Artist).bind StreamInfo.length).isSome) ∧
      ((l.lookup "bitrate").isSome ↔
        ((exposedStream .mp3 exMp3Artist).bind StreamInfo.bitrate).isSome) ∧
      ((l.lookup "sample_rate").isSome ↔
        ((exposedStream .mp3 exMp3Artist).bind StreamInfo.sample_rate).isSome) :=
  c7_audio_info_fields .mp3 exMp3Artist rfl

lemma flacField_ok {c : VComments} (hc : flacWF c) (k : String) :
    ∃ o, flacField c k = .ok o := by
  unfold flacField
  cases hck : c k with
  | none => exact ⟨none, rfl⟩
  | some vs =>
    cases vs with
    | nil => exact absurd rfl (hc k [] hck)
    | cons v t => exact ⟨some v, rfl⟩

lemma getSongInfoFlac_ok {c : VComments} (hc : flacWF c) :
    ∃ si, getSongInfoFlac c = .ok si := by
  obtain ⟨o1, h1⟩ := flacField_ok hc "TITLE"
  obtain ⟨o2, h2⟩ := flacField_ok hc "ARTIST"
  obtain ⟨o3, h3⟩ := flacField_ok hc "ALBUM"
  obtain ⟨o4, h4⟩ := flacField_ok hc "GENRE"
  refine ⟨⟨o1, o2, o3, o4⟩, ?_⟩
  simp only [getSongInfoFlac, h1, h2, h3, h4]
  rfl

/-- C8: on a well-formed file of any supported format, none of the read
operations raises — `get_song_info`, `get_lyrics` and `get_audio_info`
all return `ok` results, whatever optional tags are absent. -/
theorem c8_reads_never_raise (ft : AudioType) (fs : FileState) (h : wellFormed ft fs) :
    exceptOk (getSongInfo (freshHandle ft) fs) = true ∧
    exceptOk (getLyrics (freshHandle ft) fs) = true ∧
    exceptOk (getAudioInfo (freshHandle ft) fs) = true := by
  obtain ⟨hp, hfl⟩ := h
  cases ft with
  | mp3 =>
    refine ⟨rfl, rfl, ?_⟩
    simp [getAudioInfo, freshHandle, getAudio, mutagenLoad, hp, exceptOk]
  | flac =>
    obtain ⟨si, hsi⟩ := getSongInfoFlac_ok (hfl rfl)
    refine ⟨?_, ?_, ?_⟩ <;>
      simp [getSongInfo, getLyrics, getAudioInfo, freshHandle, getAudio, mutagenLoad, hp,
        exceptOk, hsi, Except.map]
  | wav =>
    refine ⟨?_, ?_, ?_⟩ <;>
      simp [getSongInfo, getLyrics, getAudioInfo, freshHandle, getAudio, mutagenLoad, hp,
        exceptOk, Except.map]

/-- Witness for C8 at a concrete well-formed FLAC file with almost all
optional tags absent. -/
theorem c8_witness :
    wellFormed .flac exFlacDesc ∧
    (exceptOk (getSongInfo (freshHandle .flac) exFlacDesc) = true ∧
      exceptOk (getLyrics (freshHandle .flac) exFlacDesc) = true ∧
      exceptOk (getAudioInfo (freshHandle .flac) exFlacDesc) = true) := by
  have hwf : wellFormed .flac exFlacDesc := by
    refine ⟨rfl, fun _ => ?_⟩
    intro k vs hk
    simp only [exFlacDesc, exDescComments] at hk
    by_cases hd : k = "DESCRIPTION"
    · rw [if_pos hd] at hk
      cases hk
      simp
    · rw [if_neg hd] at hk
      cases hk
  exact ⟨hwf, c8_reads_never_raise .flac exFlacDesc hwf⟩

/-- C1: for each of the three formats, on a parseable file (whose info
substructure is present in the WAV case), `set_song_info(x)` followed by
`get_song_info()` on the same freshly constructed handle returns a
record equal to `x`, for every fully-populated `x`. -/
theorem c1_round_trip (ft : AudioType) (fs : FileState) (x : SongInfo)
    (ht : x.title.isSome) (ha : x.artist.isSome) (hal : x.album.isSome) (hg : x.genre.isSome)
    (hp : fs.parseOk = true) (hw : ft = .wav → fs.wavInfo.isSome) :
    setThenGet ft x fs = .ok x := by
  rcases x with ⟨xt, xa, xl, xg⟩
  obtain ⟨t, rfl⟩ := Option.isSome_iff_exists.mp ht
  obtain ⟨a, rfl⟩ := Option.isSome_iff_exists.mp ha
  obtain ⟨l, rfl⟩ := Option.isSome_iff_exists.mp hal
  obtain ⟨g, rfl⟩ := Option.isSome_iff_exists.mp hg
  cases ft with
  | mp3 =>
    cases hmt : fs.mp3Tags <;>
      simp [setThenGet, setSongInfo, setSongInfoMp3, id3LoadFile, id3SaveFile, hmt,
        getAudio, freshHandle, mutagenLoad, hp, audioSave, AudioObj.saveToFile,
        getSongInfo, getSongInfoMp3, Except.map]
  | flac =>
    simp [setThenGet, setSongInfo, setFlacFields, vcSetStr,
      getAudio, freshHandle, mutagenLoad, hp, audioSave, AudioObj.saveToFile,
      getSongInfo, getSongInfoFlac, flacField, Except.map]
  | wav =>
    obtain ⟨w, hwi⟩ := Option.isSome_iff_exists.mp (hw rfl)
    simp [setThenGet, setSongInfo, setWavFields, hwi,
      getAudio, freshHandle, mutagenLoad, hp, audioSave, AudioObj.saveToFile,
      getSongInfo, getSongInfoWav, Except.map]

/-- Witness for C1: a concrete fully-populated record round-trips on a
concrete FLAC file. -/
theorem c1_witness :
    setThenGet .flac { title := some "T", artist := some "A", album := some "L", genre := some "G" }
      exFlacDesc =
      .ok { title := some "T", artist := some "A", album := some "L", genre := some "G" } :=
  c1_round_trip .flac exFlacDesc _ rfl rfl rfl rfl rfl (by intro h; cases h)

@[simp] lemma flacField_vcSetStr_same (c : VComments) (k v : String) :
    flacField (vcSetStr c k v) k = .ok (some v) := by
  simp [flacField, vcSetStr]

lemma flacField_vcSetStr_other (c : VComments) (k k' v : String) (h : k' ≠ k) :
    flacField (vcSetStr c k v) k' = flacField c k' := by
  simp [flacField, vcSetStr, h]

/-- C4: partial-update (merge) semantics of `set_song_info`: for each
format, starting from an existing tag state (MP3: the ID3 header exists;
WAV: the info substructure exists; FLAC: the comment dictionary is
well-formed), setting an arbitrary partially-populated record and
reading back yields, field by field, the new value where one was given
and the previous readback value where the input field was absent. -/
theorem c4_merge_update (ft : AudioType) (fs : FileState) (info : SongInfo)
    (hp : fs.parseOk = true)
    (hmp3 : ft = .mp3 → fs.mp3Tags.isSome)
    (hwav : ft = .wav → fs.wavInfo.isSome)
    (hfl : ft = .flac → flacWF fs.flacComments) :
    ∃ before, getFresh ft fs = .ok before ∧
      setThenGet ft info fs =
        .ok ⟨info.title.or before.title, info.artist.or before.artist,
          info.album.or before.album, info.genre.or before.genre⟩ := by
  rcases info with ⟨it, ia, il, ig⟩
  cases ft with
  | mp3 =>
    obtain ⟨t0, hmt⟩ := Option.isSome_iff_exists.mp (hmp3 rfl)
    refine ⟨⟨some (t0.tit2.getD ""), some (t0.tpe1.getD ""),
      some (t0.talb.getD ""), some (t0.tcon.getD "")⟩, ?_, ?_⟩
    · simp [getFresh, freshHandle, getSongInfo, getSongInfoMp3, id3LoadFile, hmt, Except.map]
    · rcases it with _ | t <;> rcases ia with _ | a <;> rcases il with _ | l <;>
        rcases ig with _ | g <;>
        simp [setThenGet, setSongInfo, setSongInfoMp3, id3LoadFile, id3SaveFile, hmt,
          getAudio, freshHandle, mutagenLoad, hp, audioSave, AudioObj.saveToFile,
          getSongInfo, getSongInfoMp3, Except.map, Option.or]
  | flac =>
    have hwf := hfl rfl
    obtain ⟨o1, h1⟩ := flacField_ok hwf "TITLE"
    obtain ⟨o2, h2⟩ := flacField_ok hwf "ARTIST"
    obtain ⟨o3, h3⟩ := flacField_ok hwf "ALBUM"
    obtain ⟨o4, h4⟩ := flacField_ok hwf "GENRE"
    refine ⟨⟨o1, o2, o3, o4⟩, ?_, ?_⟩
    · simp [getFresh, freshHandle, getSongInfo, getAudio, mutagenLoad, hp, getSongInfoFlac,
        h1, h2, h3, h4, Except.map]
    · rcases it with _ | t <;> rcases ia with _ | a <;> rcases il with _ | l <;>
        rcases ig with _ | g <;>
        simp [setThenGet, setSongInfo, setFlacFields, getAudio, freshHandle, mutagenLoad, hp,
          audioSave, AudioObj.saveToFile, getSongInfo, getSongInfoFlac,
          flacField_vcSetStr_other, h1, h2, h3, h4, Except.map, Option.or]
  | wav =>
    obtain ⟨w, hwi⟩ := Option.isSome_iff_exists.mp (hwav rfl)
    refine ⟨⟨w.title, w.artist, w.album, w.genre⟩, ?_, ?_⟩
    · simp [getFresh, freshHandle, getSongInfo, getAudio, mutagenLoad, hp, hwi,
        getSongInfoWav, Except.map]
    · rcases it with _ | t <;> rcases ia with _ | a <;> rcases il with _ | l <;>
        rcases ig with _ | g <;>
        simp [setThenGet, setSongInfo, setWavFields, hwi, getAudio, freshHandle, mutagenLoad,
          hp, audioSave, AudioObj.saveToFile, getSongInfo, getSongInfoWav, Except.map, Option.or]

/-- Witness for C4: on a concrete MP3 file with artist `"B"` and no
title, setting only the title to `"C"` yields title `"C"` while the
artist readback is untouched. -/
theorem c4_witness :
    ∃ before, getFresh .mp3 exMp3Artist = .ok before ∧
      setThenGet .mp3 { title := some "C" } exMp3Artist =
        .ok ⟨(some "C").or before.title, Option.or none before.artist,
          Option.or none before.album, Option.or none before.genre⟩ :=
  c4_merge_update .mp3 exMp3Artist { title := some "C" } rfl (fun _ => rfl)
    (fun h => by cases h) (fun h => by cases h)

end MusicFile
